import Mathlib

/-!
Verification development for the RERA project scraper (`src/main.py`).

The Python program drives a browser through a list view and detail views,
extracting labelled fields.  We shallow-embed the extraction engine:

* the DOM state visible to each routine is a structure whose fields record
  the results of the browser queries that routine performs (Selenium is an
  external collaborator, so a page is modelled by what its queries return);
* a `find_element` call that can raise `NoSuchElementException` is an
  `Option`; a property read that can raise any other exception (for example
  a stale element reference) is an `Except Unit`;
* every Python string primitive used by the code (`strip`, `lower`,
  substring membership, `startswith`, `split`, `lstrip`) is given an
  executable model over `List Char`.
-/

namespace Rera

/-- Model of Python `c.isspace()` for the characters `str.strip` removes
(the ASCII whitespace actually occurring on these pages). -/
def isPyWS (c : Char) : Bool :=
  c = ' ' || c = '\t' || c = '\n' || c = '\r'

/-- Model of Python `s.strip()` on a character list. -/
def trimList (l : List Char) : List Char :=
  ((l.dropWhile isPyWS).reverse.dropWhile isPyWS).reverse

/-- Model of Python `s.strip()`. -/
def pyStrip (s : String) : String :=
  ⟨trimList s.toList⟩

/-- Model of Python `s.lower()` (ASCII case folding suffices here). -/
def pyLower (s : String) : String :=
  ⟨s.toList.map Char.toLower⟩

/-- Model of Python substring membership `needle in hay` on lists. -/
def infixB (n : List Char) : List Char → Bool
  | [] => n.isEmpty
  | c :: rest => List.isPrefixOf n (c :: rest) || infixB n rest

/-- Model of Python `needle in hay` for strings. -/
def pyContains (needle hay : String) : Bool :=
  infixB needle.toList hay.toList

/-- Model of Python `s.startswith(p)`. -/
def pyStartsWith (p s : String) : Bool :=
  List.isPrefixOf p.toList s.toList

/-- Suffix after the last occurrence of `sep`, or `none` when `sep` does
not occur.  Later (more rightward) occurrences take priority. -/
def afterLast (sep : List Char) : List Char → Option (List Char)
  | [] => none
  | c :: rest =>
    match afterLast sep rest with
    | some r => some r
    | none =>
      if List.isPrefixOf sep (c :: rest) then
        some ((c :: rest).drop sep.length)
      else none

/-- Model of Python `s.split(sep)[-1]`: the part after the last occurrence
of `sep`, or the whole string when `sep` does not occur. -/
def pySplitLast (sep s : String) : String :=
  match afterLast sep.toList s.toList with
  | some r => ⟨r⟩
  | none => s

/-- Model of the Python lstrip call at main.py:220, removing leading
colon, space, newline and tab characters. -/
def lstripSep (s : String) : String :=
  ⟨s.toList.dropWhile (fun c => c = ':' || c = ' ' || c = '\n' || c = '\t')⟩

/-!
## Element Locator Cascade (`find_project_buttons`, main.py:123-173)
-/

/-- An anchor element as inspected by the content-based fallback strategy.
`textR = none` models `link.text` raising (the bare `except: continue` at
main.py:161 then skips the link); in `hrefR` the outer `none` models
`link.get_attribute` raising, the inner `Option` models the attribute
being absent (Python `None`, replaced by the empty string at main.py:156). -/
structure Elem where
  textR : Option String
  hrefR : Option (Option String)
  deriving Repr, DecidableEq

/-- The list page as seen by `find_project_buttons`: the result of each
CSS-selector query, and the result of the `find_elements(By.TAG_NAME, "a")`
query used by the content-based fallback. -/
structure ListPage where
  find_css : String → List Elem
  anchors : List Elem

/-- The looser CSS selectors tried by strategy 2 (main.py:133-142), in
source order. -/
def selectorList : List String :=
  [ "a.btn-primary", ".btn-primary", "a[href*=\x27project\x27]",
    "a[href*=\x27detail\x27]", "button.btn-primary", ".project-item a",
    ".project-card a", "a.btn" ]

/-- The keep-test of the content-based fallback (main.py:153-162): a link
is kept when its visible text contains `view`/`detail`/`more` or its href
contains `project`/`detail`; a link whose reads raise is skipped. -/
def keepLink (e : Elem) : Bool :=
  match e.textR, e.hrefR with
  | some t, some h =>
    let lt := pyLower (pyStrip t)
    let hr := (h.getD "")
    ([ "view", "detail", "more" ].any fun w => pyContains w lt) ||
      ([ "project", "detail" ].any fun w => pyContains w (pyLower hr))
  | _, _ => false

/-- Model of `RERAProjectScraper.find_project_buttons` (main.py:123-173): strategy 1
is the exact selector; strategy 2 walks `selectorList`; the final fallback
filters all anchors by `keepLink` and truncates to `max_projects`. -/
def find_project_buttons (p : ListPage) (max_projects : Nat) : List Elem :=
  let s1 := p.find_css "a.btn.btn-primary"
  if s1.isEmpty then
    match selectorList.findSome?
        (fun sel => let r := p.find_css sel
                    if r.isEmpty then none else some r) with
    | some r => r
    | none =>
      let project_links := p.anchors.filter keepLink
      if project_links.isEmpty then [] else project_links.take max_projects
  else s1

/-- The ordered result sets of the ten strategies of the cascade; the last
entry is the content-based fallback, already truncated as the source
truncates it on return. -/
def cascadeResults (p : ListPage) (max_projects : Nat) : List (List Elem) :=
  p.find_css "a.btn.btn-primary" ::
    (selectorList.map p.find_css ++ [(p.anchors.filter keepLink).take max_projects])

/-- First non-empty list in a list of lists, or `[]` when all are empty. -/
def firstNonemptyL {α : Type} : List (List α) → List α
  | [] => []
  | l :: ls => if l.isEmpty then firstNonemptyL ls else l

theorem firstNonemptyL_cons {α : Type} (l : List α) (ls : List (List α)) :
    firstNonemptyL (l :: ls) = if l.isEmpty then firstNonemptyL ls else l := rfl

theorem firstNonemptyL_mem {α : Type} (L : List (List α)) :
    firstNonemptyL L ∈ L ∨ firstNonemptyL L = [] := by
  induction L with
  | nil => exact Or.inr rfl
  | cons l ls ih =>
    by_cases h : l.isEmpty
    · rcases ih with h1 | h1
      · exact Or.inl (by simp [firstNonemptyL, h, h1])
      · exact Or.inr (by simp [firstNonemptyL, h, h1])
    · exact Or.inl (by simp [firstNonemptyL, h])

theorem findSome?_firstNonemptyL {α : Type} (sels : List String)
    (f : String → List α) (tail : List (List α)) :
    (match sels.findSome?
        (fun sel => let r := f sel
                    if r.isEmpty then none else some r) with
      | some r => r
      | none => firstNonemptyL tail) =
      firstNonemptyL (sels.map f ++ tail) := by
  induction sels with
  | nil => simp [firstNonemptyL]
  | cons s ss ih =>
    by_cases h : (f s).isEmpty
    · simpa [List.findSome?_cons, h, firstNonemptyL] using ih
    · simp [List.findSome?_cons, h, firstNonemptyL]

theorem fallback_firstNonemptyL {α : Type} (pl : List α) (mp : Nat) :
    (if pl.isEmpty then ([] : List α) else pl.take mp) =
      firstNonemptyL [pl.take mp] := by
  by_cases h : pl.isEmpty
  · have : pl = [] := List.isEmpty_iff.mp h
    simp [this, firstNonemptyL]
  · by_cases h2 : (pl.take mp).isEmpty
    · have : pl.take mp = [] := List.isEmpty_iff.mp h2
      simp [h, h2, firstNonemptyL, this]
    · simp [h, h2, firstNonemptyL]

/-- C1: the element-locator cascade returns the result set of the first
strategy that yields a non-empty set, in the fixed strategy order; the
result is always one of the per-strategy result sets or empty (no merging
across strategies), and an all-miss cascade returns the empty list as a
normal value (the function is total: every element read that can raise is
absorbed by the `except` handlers of the source, modelled by `keepLink`). -/
theorem c1_cascade_first_nonempty (p : ListPage) (mp : Nat) :
    find_project_buttons p mp = firstNonemptyL (cascadeResults p mp) ∧
      (find_project_buttons p mp ∈ cascadeResults p mp ∨
        find_project_buttons p mp = []) := by
  have hmain : find_project_buttons p mp = firstNonemptyL (cascadeResults p mp) := by
    unfold find_project_buttons cascadeResults
    rw [firstNonemptyL_cons,
      ← findSome?_firstNonemptyL selectorList p.find_css
        [(p.anchors.filter keepLink).take mp],
      ← fallback_firstNonemptyL (p.anchors.filter keepLink) mp]
    by_cases h : (p.find_css "a.btn.btn-primary").isEmpty
    · rw [if_pos h, if_pos h]
      cases hfs : List.findSome?
          (fun sel => let r := p.find_css sel
                      if r.isEmpty then none else some r) selectorList with
      | none => rfl
      | some r => rfl
    · rw [if_neg (by simp [h]), if_neg (by simp [h])]
  refine ⟨hmain, ?_⟩
  rw [hmain]
  exact firstNonemptyL_mem _

theorem findSome?_none_of_all_empty (sels : List String) (f : String → List Elem)
    (h : ∀ sel ∈ sels, f sel = []) :
    (sels.findSome?
      (fun sel => let r := f sel
                  if r.isEmpty then none else some r)) = none := by
  induction sels with
  | nil => rfl
  | cons s ss ih =>
    have hs : f s = [] := h s (by simp)
    have hrest := ih (fun sel hmem => h sel (by simp [hmem]))
    simp only [List.findSome?_cons, hs, List.isEmpty_nil, if_true]
    exact hrest

theorem findSome?_first_hit (f : String → List Elem) :
    ∀ (pre : List String) (sel : String) (post : List String),
      (∀ s ∈ pre, f s = []) → f sel ≠ [] →
      ((pre ++ sel :: post).findSome?
        (fun s => let r := f s
                  if r.isEmpty then none else some r)) = some (f sel) := by
  intro pre
  induction pre with
  | nil =>
    intro sel post h hne
    have hb : (f sel).isEmpty = false := by
      cases hE : (f sel).isEmpty
      · rfl
      · exact absurd (List.isEmpty_iff.mp hE) hne
    simp [List.findSome?_cons, hb]
    rw [if_neg hne]
  | cons s0 pre2 ih =>
    intro sel post h hne
    have h0 : f s0 = [] := h s0 (by simp)
    have hrest := ih sel post (fun s hs => h s (by simp [hs])) hne
    simpa [List.findSome?_cons, h0] using hrest

/-- C10: when every selector-based strategy misses and the content-based
fallback wins, the returned set is the keyword-filtered anchor list
truncated to at most `max_projects` elements; when any of the nine
selector-based strategies is the first to match (the exact selector or
any of the eight looser ones, at any position `pre ++ sel :: post` of the
fixed order), its full match set is returned with no dependence on
`max_projects` — so the reported entry count can depend on which strategy
succeeds. -/
theorem c10_fallback_truncated (p q : ListPage) (mp : Nat)
    (pre post : List String) (sel : String)
    (hp1 : p.find_css "a.btn.btn-primary" = [])
    (hp2 : ∀ s ∈ selectorList, p.find_css s = [])
    (hsplit : "a.btn.btn-primary" :: selectorList = pre ++ sel :: post)
    (hqpre : ∀ s ∈ pre, q.find_css s = [])
    (hqsel : q.find_css sel ≠ []) :
    (find_project_buttons p mp = (p.anchors.filter keepLink).take mp ∧
        (find_project_buttons p mp).length ≤ mp) ∧
      find_project_buttons q mp = q.find_css sel := by
  have hp : find_project_buttons p mp = (p.anchors.filter keepLink).take mp := by
    unfold find_project_buttons
    rw [if_pos (by simp [hp1]), findSome?_none_of_all_empty selectorList p.find_css hp2]
    by_cases hf : (p.anchors.filter keepLink).isEmpty
    · have : p.anchors.filter keepLink = [] := List.isEmpty_iff.mp hf
      simp [this]
    · simp [hf]
  refine ⟨⟨hp, ?_⟩, ?_⟩
  · rw [hp, List.length_take]
    exact min_le_left _ _
  · cases pre with
    | nil =>
      injection hsplit with h1 h2
      rw [← h1]
      unfold find_project_buttons
      rw [if_neg (by simpa [List.isEmpty_iff, h1] using hqsel)]
    | cons s0 pre2 =>
      injection hsplit with h1 h2
      rw [List.append_eq] at h2
      have hq1 : q.find_css "a.btn.btn-primary" = [] := by
        rw [h1]
        exact hqpre s0 (by simp)
      unfold find_project_buttons
      rw [if_pos (by simp [hq1]), h2,
        findSome?_first_hit q.find_css pre2 sel post
          (fun s hs => hqpre s (by simp [hs])) hqsel]

/-- A concrete anchor whose reads succeed. -/
def elemV (t h : String) : Elem := ⟨some t, some (some h)⟩

/-- A list page where every CSS selector misses and three anchors pass the
keyword filter. -/
def c10p : ListPage :=
  ⟨fun _ => [],
    [ elemV "View Details" "x", elemV "more" "y", elemV "ignore" "z?project=1" ]⟩

/-- A list page where only the ninth, loosest selector strategy finds
buttons — three of them. -/
def c10q : ListPage :=
  ⟨fun s => if s = "a.btn" then
      [ elemV "a" "1", elemV "b" "2", elemV "c" "3" ] else [],
    []⟩

theorem c10_witness :
    (find_project_buttons c10p 2 = [ elemV "View Details" "x", elemV "more" "y" ] ∧
        (find_project_buttons c10p 2).length ≤ 2) ∧
      find_project_buttons c10q 2 = c10q.find_css "a.btn" ∧
      (find_project_buttons c10q 2).length = 3 := by
  have h := c10_fallback_truncated c10p c10q 2
    [ "a.btn.btn-primary", "a.btn-primary", ".btn-primary",
      "a[href*=\x27project\x27]", "a[href*=\x27detail\x27]", "button.btn-primary",
      ".project-item a", ".project-card a" ]
    [] "a.btn" rfl (by decide) rfl (by decide) (by decide)
  exact ⟨⟨h.1.1.trans (by decide), h.1.2⟩, h.2, by rw [h.2]; decide⟩

/-!
## Label-Value Field Extractor (`get_label_strong_field`, main.py:175-258)

A detail block (`div.details-project`) is modelled by the outcomes of the
four element accesses the extractor performs on it.  `Option` layers model
`find_element` raising `NoSuchElementException` (absorbed locally by the
source); `Except Unit` layers model any other exception raised by a
property read (for example a stale reference), which the source only
catches in its outermost handler (main.py:256-258).
-/

/-- A `div.details-project` block as seen by `get_label_strong_field`. -/
structure DetailBlockE where
  /-- Result of `block.find_element(By.TAG_NAME, "label")` and the `.text` read:
  `none` is `NoSuchElementException` (skip block, main.py:227). -/
  labelR : Option (Except Unit String)
  /-- Result of the `a[href*=\x27fileId\x27]` lookup and
  its `get_attribute("href")` read (inner `Option`: attribute absent). -/
  gstLinkR : Option (Except Unit (Option String))
  /-- Result of the `strong` tag lookup and its `.text` read. -/
  strongR : Option (Except Unit String)
  /-- The `block.text` read. -/
  blockTextR : Except Unit String

/-- The detail page: the `div.details-project` blocks, plus the results of
the three XPath fallback queries (main.py:233-237) for a requested label.
XPath evaluation belongs to the browser, so it is modelled as a query oracle;
for each inner element `none` models a read raising (which the bare
`except: continue` at main.py:247 turns into skipping to the next
selector). -/
structure DetailPage where
  blocks : List DetailBlockE
  fallbackResults : String → List (List (Option String))

/-- The label match test of main.py:190:
`label_text.strip().lower() in label.text.strip().lower()`. -/
def labelMatches (requested labelText : String) : Bool :=
  pyContains (pyLower (pyStrip requested)) (pyLower (pyStrip labelText))

/-- The GST gate of main.py:193: `"gst" in label_text.lower()`. -/
def concernsGst (requested : String) : Bool :=
  pyContains "gst" (pyLower requested)

/-- The href test of main.py:197: `"fileId=" in href` (the Python `href and`
guard is subsumed: a string containing `fileId=` is non-empty). -/
def hasFileId (href : String) : Bool :=
  pyContains "fileId=" href

/-- The reference descriptor built at main.py:198-200:
`href.split("fileId=")[-1]` wrapped as `PDF Document (ID: ...)`. -/
def pdfDescriptor (href : String) : String :=
  "PDF Document (ID: " ++ pySplitLast "fileId=" href ++ ")"

/-- The fixed string returned by the outermost handler (main.py:258); the
source interpolates the exception text, and every claim only inspects the
`Error:` prefix. -/
def errorValue : String := "Error: exception"

/-- The GST document-link step (main.py:193-202): only attempted when the
requested label concerns GST; `NoSuchElementException` falls through. -/
def gstExtract (requested : String) (b : DetailBlockE) : Except Unit (Option String) :=
  if concernsGst requested then
    match b.gstLinkR with
    | none => Except.ok none
    | some hrefRead =>
      match hrefRead with
      | Except.error e => Except.error e
      | Except.ok none => Except.ok none
      | Except.ok (some href) =>
        if hasFileId href then Except.ok (some (pdfDescriptor href))
        else Except.ok none
  else Except.ok none

/-- The strong-tag step (main.py:205-212): the trimmed text of the first
`<strong>` child, when non-empty. -/
def strongExtract (b : DetailBlockE) : Except Unit (Option String) :=
  match b.strongR with
  | none => Except.ok none
  | some sread =>
    match sread with
    | Except.error e => Except.error e
    | Except.ok s =>
      if pyStrip s ≠ "" then Except.ok (some (pyStrip s))
      else Except.ok none

/-- The block-text step (main.py:214-225): strip the label prefix and the
separator characters; the absent sentinel `N/A` when nothing remains or
the block text does not start with the label. -/
def blockTextExtract (labelText : String) (b : DetailBlockE) : Except Unit String :=
  match b.blockTextR with
  | Except.error e => Except.error e
  | Except.ok bt =>
    let block_text := pyStrip bt
    let label_clean := pyStrip labelText
    if pyStartsWith label_clean block_text then
      let value := pyStrip ⟨block_text.toList.drop label_clean.toList.length⟩
      let value := pyStrip (lstripSep value)
      if value ≠ "" then Except.ok value else Except.ok "N/A"
    else Except.ok "N/A"

/-- Value extraction from a label-matched block (main.py:192-225): document
link first, then strong tag, then block text, then the absent sentinel. -/
def extractFromBlock (requested labelText : String) (b : DetailBlockE) :
    Except Unit String :=
  match gstExtract requested b with
  | Except.error e => Except.error e
  | Except.ok (some v) => Except.ok v
  | Except.ok none =>
    match strongExtract b with
    | Except.error e => Except.error e
    | Except.ok (some v) => Except.ok v
    | Except.ok none => blockTextExtract labelText b

/-- The structured-block tier (main.py:187-228): scan blocks in order;
a block without a `<label>` child is skipped; the first block whose label
matches decides the result and ends the scan.  `ok none` means no block
matched; `error` means an exception escaped to the outer handler. -/
def scanBlocks (requested : String) : List DetailBlockE → Except Unit (Option String)
  | [] => Except.ok none
  | b :: rest =>
    match b.labelR with
    | none => scanBlocks requested rest
    | some lread =>
      match lread with
      | Except.error e => Except.error e
      | Except.ok labelText =>
        if labelMatches requested labelText then
          match extractFromBlock requested labelText b with
          | Except.error e => Except.error e
          | Except.ok v => Except.ok (some v)
        else scanBlocks requested rest

/-- One XPath result list of the fallback tier (main.py:241-246): return
the first element whose stripped text is non-empty; a raising read aborts
the scan of this selector. -/
def scanFallbackElems : List (Option String) → Option String
  | [] => none
  | none :: _ => none
  | some t :: rest =>
    if pyStrip t ≠ "" then some (pyStrip t) else scanFallbackElems rest

/-- The fallback tier (main.py:230-251): the three XPath selector queries
in order, first hit wins. -/
def fallbackTier (p : DetailPage) (requested : String) : Option String :=
  (p.fallbackResults requested).findSome? scanFallbackElems

/-- Model of `RERAProjectScraper.get_label_strong_field` (main.py:175-258): the
structured-block tier, then the XPath fallback tier, then the absent
sentinel; an exception escaping the block scan reaches the outermost
handler and becomes the `Error:` value. -/
def get_label_strong_field (p : DetailPage) (requested : String) : String :=
  match scanBlocks requested p.blocks with
  | Except.error _ => errorValue
  | Except.ok (some v) => v
  | Except.ok none =>
    match fallbackTier p requested with
    | some t => t
    | none => "N/A"

/-- A block the scan passes over: no `<label>` child, or a readable label
text that does not contain the requested label. -/
def skipsOrNoMatch (requested : String) (b : DetailBlockE) : Prop :=
  b.labelR = none ∨
    ∃ l, b.labelR = some (Except.ok l) ∧ labelMatches requested l = false

theorem scanBlocks_append_skip (requested : String) (pre rest : List DetailBlockE)
    (h : ∀ b ∈ pre, skipsOrNoMatch requested b) :
    scanBlocks requested (pre ++ rest) = scanBlocks requested rest := by
  induction pre with
  | nil => rfl
  | cons b bs ih =>
    have hrest := ih (fun b' hb' => h b' (by simp [hb']))
    rcases h b (by simp) with hb | ⟨l, hb, hnm⟩
    · simp [scanBlocks, hb, hrest]
    · simp [scanBlocks, hb, hnm, hrest]

theorem scanBlocks_match_head (requested l : String) (b : DetailBlockE)
    (rest : List DetailBlockE)
    (hl : b.labelR = some (Except.ok l)) (hm : labelMatches requested l = true) :
    scanBlocks requested (b :: rest) =
      match extractFromBlock requested l b with
      | Except.error e => Except.error e
      | Except.ok v => Except.ok (some v) := by
  simp [scanBlocks, hl, hm]

/-- C2: when the requested label concerns GST and the first matching block
carries a document link whose href contains a file-id parameter, the
extractor returns the reference descriptor built from exactly that file
id, whatever the strong tag or block text of that block hold. -/
theorem c2_gst_link_priority (p : DetailPage) (requested : String)
    (pre post : List DetailBlockE) (b : DetailBlockE) (l href : String)
    (hblocks : p.blocks = pre ++ b :: post)
    (hpre : ∀ bp ∈ pre, skipsOrNoMatch requested bp)
    (hl : b.labelR = some (Except.ok l))
    (hm : labelMatches requested l = true)
    (hg : concernsGst requested = true)
    (hlink : b.gstLinkR = some (Except.ok (some href)))
    (hfid : hasFileId href = true) :
    get_label_strong_field p requested =
      "PDF Document (ID: " ++ pySplitLast "fileId=" href ++ ")" := by
  have hx : extractFromBlock requested l b = Except.ok (pdfDescriptor href) := by
    unfold extractFromBlock gstExtract
    rw [hlink]
    simp [hg, hfid]
  have hscan : scanBlocks requested p.blocks = Except.ok (some (pdfDescriptor href)) := by
    rw [hblocks, scanBlocks_append_skip requested pre _ hpre,
      scanBlocks_match_head requested l b post hl hm, hx]
  unfold get_label_strong_field
  rw [hscan]
  rfl

/-- The first matching block of the C2 witness page: a GST label whose
block holds both a document link and a non-empty strong value. -/
def c2block : DetailBlockE :=
  ⟨some (Except.ok "GST No"), some (Except.ok (some "download?fileId=FID42")),
    some (Except.ok "22AAAAA0000A1Z5"), Except.ok "GST No: 22AAAAA0000A1Z5"⟩

/-- The C2 witness page. -/
def c2page : DetailPage := ⟨[c2block], fun _ => []⟩

theorem c2_witness :
    concernsGst "GST No" = true ∧
      strongExtract c2block = Except.ok (some "22AAAAA0000A1Z5") ∧
      get_label_strong_field c2page "GST No" = "PDF Document (ID: FID42)" := by
  refine ⟨by decide, by rfl, ?_⟩
  have h := c2_gst_link_priority c2page "GST No" [] [] c2block "GST No"
    "download?fileId=FID42" rfl (by simp) rfl (by decide) (by decide) rfl (by decide)
  exact h.trans (by decide)

/-- C3 (amended): with no matching block and an empty page-wide fallback
the extractor returns the absent sentinel; an exception escaping the block
scan is absorbed and converted into the `Error:`-prefixed marker value
(not the absent sentinel), never propagated — the function is total. -/
theorem c3_absorbed_exceptions (p : DetailPage) (requested : String) :
    ((∀ b ∈ p.blocks, skipsOrNoMatch requested b) →
        fallbackTier p requested = none →
        get_label_strong_field p requested = "N/A") ∧
      (∀ e, scanBlocks requested p.blocks = Except.error e →
        get_label_strong_field p requested = errorValue ∧
          pyStartsWith "Error:" errorValue = true) := by
  constructor
  · intro hb hf
    have hscan : scanBlocks requested p.blocks = Except.ok none := by
      have := scanBlocks_append_skip requested p.blocks [] hb
      simpa using this
    unfold get_label_strong_field
    rw [hscan]
    show (match fallbackTier p requested with
      | some t => t
      | none => "N/A") = "N/A"
    rw [hf]
  · intro e he
    refine ⟨?_, by decide⟩
    unfold get_label_strong_field
    rw [he]

/-- C3 counterexample page: the single block matches the requested label
but its `block.text` read raises outside the `NoSuchElementException`
handlers. -/
def c3page : DetailPage :=
  ⟨[ ⟨some (Except.ok "Project Name"), none, none, Except.error ()⟩ ], fun _ => []⟩

theorem c3_counterexample :
    scanBlocks "Project Name" c3page.blocks = Except.error () ∧
      get_label_strong_field c3page "Project Name" = errorValue ∧
      get_label_strong_field c3page "Project Name" ≠ "N/A" := by
  exact ⟨by rfl, by decide, by decide⟩

/-- C3 witness page for the no-match branch. -/
def c3aPage : DetailPage :=
  ⟨[ ⟨some (Except.ok "Other Label"), none, none, Except.ok "Other Label: v"⟩,
     ⟨none, none, none, Except.ok "x"⟩ ], fun _ => []⟩

theorem c3_witness :
    get_label_strong_field c3aPage "Promoter Name" = "N/A" ∧
      get_label_strong_field c3page "Project Name" = errorValue := by
  constructor
  · refine (c3_absorbed_exceptions c3aPage "Promoter Name").1 ?_ (by rfl)
    intro b hb
    simp only [c3aPage, List.mem_cons, List.not_mem_nil, or_false] at hb
    rcases hb with h | h
    · exact Or.inr ⟨"Other Label", by rw [h], by decide⟩
    · exact Or.inl (by rw [h])
  · exact ((c3_absorbed_exceptions c3page "Project Name").2 () (by rfl)).1

/-- C4: the first block whose label matches decides the whole result —
the value drawn from that block (or the `Error:` marker when a read in it
raises), with the blocks after it never scanned. -/
theorem c4_first_match_wins (p q : DetailPage) (requested l : String)
    (pre post : List DetailBlockE) (b : DetailBlockE)
    (hp : p.blocks = pre ++ b :: post)
    (hq : q.blocks = pre ++ [b])
    (hpre : ∀ bp ∈ pre, skipsOrNoMatch requested bp)
    (hl : b.labelR = some (Except.ok l))
    (hm : labelMatches requested l = true) :
    get_label_strong_field p requested =
      (match extractFromBlock requested l b with
        | Except.ok v => v
        | Except.error _ => errorValue) ∧
      get_label_strong_field p requested = get_label_strong_field q requested := by
  have hpscan : scanBlocks requested p.blocks =
      (match extractFromBlock requested l b with
        | Except.error e => Except.error e
        | Except.ok v => Except.ok (some v)) := by
    rw [hp, scanBlocks_append_skip requested pre (b :: post) hpre,
      scanBlocks_match_head requested l b post hl hm]
  have hqscan : scanBlocks requested q.blocks =
      (match extractFromBlock requested l b with
        | Except.error e => Except.error e
        | Except.ok v => Except.ok (some v)) := by
    rw [hq, scanBlocks_append_skip requested pre [b] hpre,
      scanBlocks_match_head requested l b [] hl hm]
  rcases hx : extractFromBlock requested l b with e | v
  · constructor
    · unfold get_label_strong_field
      rw [hpscan, hx]
    · unfold get_label_strong_field
      rw [hpscan, hqscan, hx]
  · constructor
    · unfold get_label_strong_field
      rw [hpscan, hx]
    · unfold get_label_strong_field
      rw [hpscan, hqscan, hx]

/-- C4 witness: a first matching block whose extraction yields no text. -/
def c4b : DetailBlockE :=
  ⟨some (Except.ok "Project Status"), none, none, Except.ok "Project Status:"⟩

/-- A later block that would yield a real value, never reached. -/
def c4rich : DetailBlockE :=
  ⟨some (Except.ok "Project Status"), none, some (Except.ok "Ongoing"),
    Except.ok "Project Status: Ongoing"⟩

/-- C4 witness page with the empty-valued block first. -/
def c4p : DetailPage := ⟨[c4b, c4rich], fun _ => []⟩

/-- C4 witness page without the later block. -/
def c4q : DetailPage := ⟨[c4b], fun _ => []⟩

theorem c4_witness :
    get_label_strong_field c4p "Project Status" = "N/A" ∧
      get_label_strong_field c4p "Project Status" =
        get_label_strong_field c4q "Project Status" := by
  have h := c4_first_match_wins c4p c4q "Project Status" "Project Status"
    [] [c4rich] c4b rfl rfl (by simp) rfl (by decide)
  exact ⟨h.1.trans (by decide), h.2⟩

/-!
## Promoter tab and record assembly (main.py:260-481)
-/

/-- The acceptance test used by the alias loop (main.py:454) and the
promoter-content poll (main.py:336):
`value not in ["N/A", ""] and not value.startswith("Error:")`. -/
def acceptable (v : String) : Bool :=
  !(v == "N/A") && !(v == "") && !(pyStartsWith "Error:" v)

/-- The alias loop body of main.py:451-457: try aliases in order, first
acceptable value wins, defaulting to the absent sentinel. -/
def firstAliasValue (extract : String → String) : List String → String
  | [] => "N/A"
  | a :: rest =>
    let value := extract a
    if acceptable value then value else firstAliasValue extract rest

/-- Trace of the aliases the loop of main.py:451-457 actually calls
`get_label_strong_field` on, in order (it breaks at the first acceptable
value). -/
def aliasAttempts (extract : String → String) : List String → List String
  | [] => []
  | a :: rest =>
    if acceptable (extract a) then [a] else a :: aliasAttempts extract rest

theorem firstAliasValue_all_fail (e : String → String) (vs : List String)
    (h : ∀ a ∈ vs, acceptable (e a) = false) :
    firstAliasValue e vs = "N/A" := by
  induction vs with
  | nil => rfl
  | cons a rest ih =>
    simp [firstAliasValue, h a (by simp), ih (fun x hx => h x (by simp [hx]))]

/-- C5: aliases are tried in priority order; with `A` failing and `B`
acceptable, the result is the value under `B`, the loop calls the extractor on
exactly `A` then `B` (so `A` and `C` are each attempted at most once), and
a specification whose aliases all fail yields the absent sentinel. -/
theorem c5_alias_priority (extract : String → String) (A B C : String)
    (hA : acceptable (extract A) = false)
    (hB : acceptable (extract B) = true) :
    firstAliasValue extract [A, B, C] = extract B ∧
      aliasAttempts extract [A, B, C] = [A, B] ∧
      (∀ e2 : String → String,
        (∀ a ∈ [A, B, C], acceptable (e2 a) = false) →
        firstAliasValue e2 [A, B, C] = "N/A") := by
  refine ⟨?_, ?_, ?_⟩
  · simp [firstAliasValue, hA, hB]
  · simp [aliasAttempts, hA, hB]
  · intro e2 h2
    exact firstAliasValue_all_fail e2 [A, B, C] h2

/-- A page-extraction oracle for the C5 witness: only the `Promoter Name`
alias resolves. -/
def c5extract : String → String :=
  fun s => if s = "Promoter Name" then "ACME Constructions Ltd" else "N/A"

theorem c5_witness :
    firstAliasValue c5extract [ "Company Name", "Promoter Name", "Developer Name" ] =
        "ACME Constructions Ltd" ∧
      aliasAttempts c5extract [ "Company Name", "Promoter Name", "Developer Name" ] =
        [ "Company Name", "Promoter Name" ] := by
  have h := c5_alias_priority c5extract "Company Name" "Promoter Name"
    "Developer Name" (by decide) (by decide)
  exact ⟨h.1.trans (by decide), h.2.1⟩

/-- A candidate promoter-tab element: the probes and click attempts of
main.py:292-311.  `clickWorks = false` means both the plain and the
scripted click raise, which the handler at main.py:309-311 absorbs. -/
structure TabElem where
  displayed : Bool
  enabled : Bool
  clickWorks : Bool
  deriving Repr, DecidableEq

/-- The promoter-tab DOM as seen by `click_promoter_tab`: the element sets
returned by its eight locator strategies (main.py:267-279), in order. -/
structure TabEnv where
  strategyResults : List (List TabElem)

/-- Whether the element set of a strategy contains a clickable element
(main.py:292-311). -/
def clickableHit (els : List TabElem) : Bool :=
  els.any fun e => e.displayed && e.enabled && e.clickWorks

/-- The `tab_clicked` flag after the strategy loop (main.py:281-318). -/
def tabClicked (env : TabEnv) : Bool :=
  env.strategyResults.any clickableHit

/-- The probe set of the content poll (main.py:331). -/
def test_fields : List String :=
  [ "Company Name", "Promoter Name", "GST", "Address" ]

/-- The content poll of main.py:326-344: up to `max_wait` rounds, declared
settled as soon as any probe field yields an acceptable value.  The DOM is
a fixed snapshot here, so the rounds all query the same page. -/
def pollPromoterContent (page : DetailPage) : Nat → Bool
  | 0 => false
  | k + 1 =>
    (test_fields.any fun f => acceptable (get_label_strong_field page f)) ||
      pollPromoterContent page k

/-- Model of `RERAProjectScraper.click_promoter_tab` (main.py:260-352).  Every
modelled path returns `True`: no tab found returns `True` at main.py:322,
and after a click both the settled and the budget-exhausted poll exits
return `True` (main.py:342, main.py:347).  The `return False` at
main.py:352 needs an exception outside every inner handler, which no
modelled browser operation reaches. -/
def click_promoter_tab (env : TabEnv) (page : DetailPage) : Bool :=
  if tabClicked env then
    if pollPromoterContent page 8 then true else true
  else true

theorem click_promoter_tab_true (env : TabEnv) (page : DetailPage) :
    click_promoter_tab env page = true := by
  unfold click_promoter_tab
  by_cases h : tabClicked env <;> simp [h]

/-- The environment of one `scrape_project_details` call: the list page it
re-queries for buttons, whether the project-button click chain succeeds,
the `wait_for_page_load` outcome (logged and ignored, main.py:391-392),
the detail-page DOM for the base fields, the promoter-tab DOM, the DOM
used for the promoter-field extractions, and the capture timestamp. -/
structure DetailEnv where
  listPage : ListPage
  clickOk : Bool
  loadOk : Bool
  page : DetailPage
  tabEnv : TabEnv
  promoPage : DetailPage
  scrapedAt : String

/-- The promoter Field Specifications of main.py:443-447. -/
def promoter_fields : List (String × List String) :=
  [ ("Promoter Name",
      [ "Company Name", "Promoter Name", "Developer Name", "Builder Name" ]),
    ("Promoter Address",
      [ "Registered Office Address", "Address", "Office Address",
        "Registered Address" ]),
    ("GST No", [ "GST No", "GST", "GST Number", "GSTIN" ]) ]

/-- Model of `RERAProjectScraper.scrape_project_details` (main.py:354-481): find the
buttons, bail out on no buttons / out-of-range index / failed click,
extract the four base fields, attempt the promoter tab, fill the three
promoter fields by alias fallback (left at the absent sentinel when the
tab transition reports failure), and assemble the record dict in source
order with the capture timestamp. -/
def scrape_project_details (env : DetailEnv) (max_projects project_index : Nat) :
    Option (List (String × String)) :=
  let buttons := find_project_buttons env.listPage max_projects
  if buttons.isEmpty then none
  else if buttons.length ≤ project_index then none
  else if env.clickOk = false then none
  else
    let rera_no := get_label_strong_field env.page "RERA Regd. No"
    let project_name := get_label_strong_field env.page "Project Name"
    let project_type := get_label_strong_field env.page "Project Type"
    let project_status := get_label_strong_field env.page "Project Status"
    let promo :=
      if click_promoter_tab env.tabEnv env.promoPage then
        promoter_fields.map fun kv =>
          (kv.1, firstAliasValue (get_label_strong_field env.promoPage) kv.2)
      else promoter_fields.map fun kv => (kv.1, "N/A")
    some ([ ("RERA Regd. No", rera_no), ("Project Name", project_name),
      ("Project Type", project_type), ("Project Status", project_status) ] ++
      promo ++ [ ("Scraped At", env.scrapedAt) ])

/-- The key list of every assembled record, in source order
(main.py:464-473): seven canonical field keys and the timestamp key. -/
def recordKeys : List String :=
  [ "RERA Regd. No", "Project Name", "Project Type", "Project Status",
    "Promoter Name", "Promoter Address", "GST No", "Scraped At" ]

/-- C7 (amended): for every successfully assembled record the key list is
exactly the seven canonical field keys plus the capture-timestamp key,
regardless of which aliases resolved and which extractions were absent. -/
theorem c7_record_keys (env : DetailEnv) (mp i : Nat)
    (r : List (String × String))
    (h : scrape_project_details env mp i = some r) :
    r.map Prod.fst = recordKeys := by
  simp only [scrape_project_details] at h
  by_cases h1 : (find_project_buttons env.listPage mp).isEmpty
  · rw [if_pos h1] at h
    exact absurd h (by simp)
  · rw [if_neg h1] at h
    by_cases h2 : (find_project_buttons env.listPage mp).length ≤ i
    · rw [if_pos h2] at h
      exact absurd h (by simp)
    · rw [if_neg h2] at h
      by_cases h3 : env.clickOk = false
      · rw [if_pos h3] at h
        exact absurd h (by simp)
      · rw [if_neg h3] at h
        injection h with h
        rw [← h]
        by_cases hc : click_promoter_tab env.tabEnv env.promoPage
        · simp [hc, promoter_fields, recordKeys]
        · simp [hc, promoter_fields, recordKeys]

/-- A detail page carrying the four base fields as strong values. -/
def basePage : DetailPage :=
  ⟨[ ⟨some (Except.ok "RERA Regd. No"), none, some (Except.ok "RP/01/2025/00123"),
      Except.ok "RERA Regd. No: RP/01/2025/00123"⟩,
     ⟨some (Except.ok "Project Name"), none, some (Except.ok "Sunrise Towers"),
      Except.ok "Project Name: Sunrise Towers"⟩,
     ⟨some (Except.ok "Project Type"), none, some (Except.ok "Residential"),
      Except.ok "Project Type: Residential"⟩,
     ⟨some (Except.ok "Project Status"), none, some (Except.ok "Ongoing"),
      Except.ok "Project Status: Ongoing"⟩ ], fun _ => []⟩

/-- A promoter-tab DOM with no tab element at all. -/
def emptyTab : TabEnv := ⟨[]⟩

/-- A detail page with no blocks and empty fallbacks. -/
def emptyPage : DetailPage := ⟨[], fun _ => []⟩

/-- A list page whose exact selector finds one project button. -/
def listPage1 : ListPage :=
  ⟨fun s => if s = "a.btn.btn-primary" then [ elemV "View" "p1" ] else [], []⟩

/-- The concrete assembler environment shared by the C7 and C8 evidence:
base fields present, promoter tab absent, no promoter field resolvable. -/
def c78env : DetailEnv :=
  ⟨listPage1, true, true, basePage, emptyTab, emptyPage, "2025-01-01 00:00:00"⟩

/-- The record the assembler produces from `c78env`. -/
def c78rec : List (String × String) :=
  [ ("RERA Regd. No", "RP/01/2025/00123"), ("Project Name", "Sunrise Towers"),
    ("Project Type", "Residential"), ("Project Status", "Ongoing"),
    ("Promoter Name", "N/A"), ("Promoter Address", "N/A"), ("GST No", "N/A"),
    ("Scraped At", "2025-01-01 00:00:00") ]

theorem c7_counterexample :
    scrape_project_details c78env 6 0 = some c78rec ∧
      (c78rec.map Prod.fst).length = 8 ∧ (c78rec.map Prod.fst).Nodup ∧
      (c78rec.map Prod.fst).length ≠ 7 :=
  ⟨by decide, by decide, by decide, by decide⟩

theorem c7_witness : c78rec.map Prod.fst = recordKeys :=
  c7_record_keys c78env 6 0 c78rec (by decide)

/-- C8: with no promoter tab anywhere in the DOM the tab transition still
reports success, and the assembler returns a record whose base fields are
the extracted values while the three promoter fields, whose aliases all
fail, are the absent sentinel. -/
theorem c8_missing_tab (env : DetailEnv) (mp i : Nat)
    (htab : ∀ els ∈ env.tabEnv.strategyResults, els = [])
    (hbtn : i < (find_project_buttons env.listPage mp).length)
    (hclick : env.clickOk = true)
    (hpromo : ∀ kv ∈ promoter_fields, ∀ a ∈ kv.2,
      acceptable (get_label_strong_field env.promoPage a) = false) :
    click_promoter_tab env.tabEnv env.promoPage = true ∧
      scrape_project_details env mp i = some
        [ ("RERA Regd. No", get_label_strong_field env.page "RERA Regd. No"),
          ("Project Name", get_label_strong_field env.page "Project Name"),
          ("Project Type", get_label_strong_field env.page "Project Type"),
          ("Project Status", get_label_strong_field env.page "Project Status"),
          ("Promoter Name", "N/A"), ("Promoter Address", "N/A"),
          ("GST No", "N/A"), ("Scraped At", env.scrapedAt) ] := by
  have htc : tabClicked env.tabEnv = false := by
    unfold tabClicked
    rw [List.any_eq_false]
    intro els hmem
    rw [htab els hmem]
    decide
  refine ⟨by simp [click_promoter_tab, htc], ?_⟩
  have hne : ¬(find_project_buttons env.listPage mp).isEmpty = true := by
    intro hE
    rw [List.isEmpty_iff.mp hE] at hbtn
    exact absurd hbtn (by simp)
  have hmap : promoter_fields.map
      (fun kv => (kv.1, firstAliasValue (get_label_strong_field env.promoPage) kv.2)) =
      promoter_fields.map (fun kv => (kv.1, "N/A")) := by
    apply List.map_congr_left
    intro kv hkv
    rw [firstAliasValue_all_fail _ _ (hpromo kv hkv)]
  unfold scrape_project_details
  rw [if_neg hne, if_neg (by omega), if_neg (by simp [hclick])]
  simp only [click_promoter_tab_true, if_true, hmap]
  rfl

theorem c8_witness :
    click_promoter_tab c78env.tabEnv c78env.promoPage = true ∧
      scrape_project_details c78env 6 0 = some
        [ ("RERA Regd. No", "RP/01/2025/00123"), ("Project Name", "Sunrise Towers"),
          ("Project Type", "Residential"), ("Project Status", "Ongoing"),
          ("Promoter Name", "N/A"), ("Promoter Address", "N/A"),
          ("GST No", "N/A"), ("Scraped At", "2025-01-01 00:00:00") ] := by
  have h := c8_missing_tab c78env 6 0 (by simp [c78env, emptyTab])
    (by decide) rfl (by decide)
  exact ⟨h.1, h.2.trans (by decide)⟩

/-!
## Navigation back and the run loop (main.py:483-566)
-/

/-- The environment of one `navigate_back_to_list` call: whether any of
its browser operations raises (absorbed by the handler at main.py:502-504),
the `wait_for_page_load` outcome, and the page shown after history-back. -/
structure BackEnv where
  backRaises : Bool
  loadOk : Bool
  listPage : ListPage

/-- Model of `RERAProjectScraper.navigate_back_to_list` (main.py:483-504): after
history-back, success means the page loaded and the button cascade finds
entries again; every other path, including a raised exception, returns
`False` — the function never raises. -/
def navigate_back_to_list (env : BackEnv) (max_projects : Nat) : Bool :=
  if env.backRaises then false
  else if env.loadOk then
    !(find_project_buttons env.listPage max_projects).isEmpty
  else false

/-- The index loop of `scrape_projects` (main.py:535-553) over the `k`
remaining indices starting at `i`: append the record when the assembler
returns one, and between consecutive indices (`i < projects_to_scrape - 1`)
require a successful back-navigation, else break. -/
def scrapeLoop (envAt : Nat → DetailEnv) (navBack : Nat → Bool)
    (max_projects : Nat) : Nat → Nat → List (List (String × String))
  | _, 0 => []
  | i, k + 1 =>
    let recs :=
      match scrape_project_details (envAt i) max_projects i with
      | some r => [r]
      | none => []
    recs ++
      (if k = 0 then []
       else if navBack i then scrapeLoop envAt navBack max_projects (i + 1) k
       else [])

/-- Model of `RERAProjectScraper.scrape_projects` (main.py:506-566): bail out when
the initial page fails to load or shows no buttons, then loop over
`min(max_projects, len(buttons))` indices.  `envAt i` is the browser state
the assembler sees at index `i`, `navBack i` the outcome of the
back-navigation after index `i`. -/
def scrape_projects (p0 : ListPage) (loaded : Bool) (envAt : Nat → DetailEnv)
    (navBack : Nat → Bool) (max_projects : Nat) : List (List (String × String)) :=
  if loaded = false then []
  else
    let buttons := find_project_buttons p0 max_projects
    if buttons.isEmpty then []
    else scrapeLoop envAt navBack max_projects 0 (min max_projects buttons.length)

theorem scrapeLoop_all_success (envAt : Nat → DetailEnv) (navBack : Nat → Bool)
    (mp : Nat) :
    ∀ (k i : Nat), (∀ j, j < k → navBack (i + j) = true) →
      scrapeLoop envAt navBack mp i k =
        (List.range k).filterMap
          (fun j => scrape_project_details (envAt (i + j)) mp (i + j)) := by
  intro k
  induction k with
  | zero => intro i h; rfl
  | succ k ih =>
    intro i h
    rw [scrapeLoop, List.range_succ_eq_map, List.filterMap_cons, List.filterMap_map]
    have h0 : i + 0 = i := Nat.add_zero i
    cases k with
    | zero =>
      rcases hd : scrape_project_details (envAt i) mp i with _ | r <;>
        simp [h0, hd]
    | succ k2 =>
      have hnb : navBack i = true := by
        have := h 0 (by omega)
        rwa [h0] at this
      have hrec := ih (i + 1) (fun j hj => by
        have := h (j + 1) (by omega)
        rwa [show i + (j + 1) = i + 1 + j by omega] at this)
      have hcomp : ((fun j => scrape_project_details (envAt (i + j)) mp (i + j)) ∘
          Nat.succ) =
          fun j => scrape_project_details (envAt (i + 1 + j)) mp (i + 1 + j) := by
        funext j
        show scrape_project_details (envAt (i + (j + 1))) mp (i + (j + 1)) = _
        rw [show i + (j + 1) = i + 1 + j by omega]
      rw [hcomp, ← hrec]
      rcases hd : scrape_project_details (envAt i) mp i with _ | r <;>
        simp [h0, hd, hnb, scrapeLoop]

/-- C6: a fully successful run visits exactly
`min(max_projects, discovered entries)` indices and produces the records
of indices `0, 1, …` in strict increasing order (the result is the
in-order `filterMap` of the assembler over exactly that index range). -/
theorem c6_visits_min_indices (p0 : ListPage) (envAt : Nat → DetailEnv)
    (navBack : Nat → Bool) (mp : Nat)
    (hnav : ∀ j, j < min mp (find_project_buttons p0 mp).length →
      navBack j = true) :
    scrape_projects p0 true envAt navBack mp =
      (List.range (min mp (find_project_buttons p0 mp).length)).filterMap
        (fun i => scrape_project_details (envAt i) mp i) := by
  unfold scrape_projects
  rw [if_neg (by simp)]
  by_cases h1 : (find_project_buttons p0 mp).isEmpty
  · have h0 : (find_project_buttons p0 mp).length = 0 := by
      rw [List.isEmpty_iff.mp h1]
      rfl
    simp [h1, h0]
  · rw [if_neg h1]
    have h := scrapeLoop_all_success envAt navBack mp
      (min mp (find_project_buttons p0 mp).length) 0
      (fun j hj => by simpa using hnav j (by simpa using hj))
    simpa using h

/-- A list page whose exact selector finds three project buttons. -/
def listPage3 : ListPage :=
  ⟨fun s => if s = "a.btn.btn-primary" then
      [ elemV "V1" "p1", elemV "V2" "p2", elemV "V3" "p3" ] else [],
    []⟩

/-- The record assembled from `basePage` with absent promoter fields and
the given timestamp. -/
def recWith (ts : String) : List (String × String) :=
  [ ("RERA Regd. No", "RP/01/2025/00123"), ("Project Name", "Sunrise Towers"),
    ("Project Type", "Residential"), ("Project Status", "Ongoing"),
    ("Promoter Name", "N/A"), ("Promoter Address", "N/A"), ("GST No", "N/A"),
    ("Scraped At", ts) ]

/-- Per-index assembler environments for the run-loop evidence, with
distinct timestamps so the output order is visible. -/
def c6envAt : Nat → DetailEnv := fun i =>
  ⟨listPage3, true, true, basePage, emptyTab, emptyPage,
    if i = 0 then "2025-01-01 00:00:01"
    else if i = 1 then "2025-01-01 00:00:02" else "2025-01-01 00:00:03"⟩

theorem c6_witness :
    min 6 (find_project_buttons listPage3 6).length = 3 ∧
      scrape_projects listPage3 true c6envAt (fun _ => true) 6 =
        [ recWith "2025-01-01 00:00:01", recWith "2025-01-01 00:00:02",
          recWith "2025-01-01 00:00:03" ] := by
  refine ⟨by decide, ?_⟩
  have h := c6_visits_min_indices listPage3 c6envAt (fun _ => true) 6
    (fun j hj => rfl)
  exact h.trans (by decide)

theorem scrapeLoop_stops (envAt : Nat → DetailEnv) (navBack : Nat → Bool)
    (mp : Nat) :
    ∀ (k s i : Nat), (∀ j, j < k → navBack (i + j) = true) →
      navBack (i + k) = false →
      scrapeLoop envAt navBack mp i (k + 1 + (s + 1)) =
        (List.range (k + 1)).filterMap
          (fun j => scrape_project_details (envAt (i + j)) mp (i + j)) := by
  intro k
  induction k with
  | zero =>
    intro s i h hk
    rw [show 0 + 1 + (s + 1) = (s + 1) + 1 by omega, scrapeLoop]
    rw [Nat.add_zero] at hk
    rcases hd : scrape_project_details (envAt i) mp i with _ | r <;>
      simp [hd, hk, List.range_succ, List.range_zero, List.filterMap_append,
        List.filterMap_cons]
  | succ k2 ih =>
    intro s i h hk
    have hnb : navBack i = true := by
      have := h 0 (by omega)
      rwa [Nat.add_zero] at this
    have hrec := ih s (i + 1) (fun j hj => by
        have := h (j + 1) (by omega)
        rwa [show i + (j + 1) = i + 1 + j by omega] at this)
      (by rwa [show i + 1 + k2 = i + (k2 + 1) by omega])
    rw [show k2 + 1 + 1 + (s + 1) = (k2 + 1 + (s + 1)) + 1 by omega, scrapeLoop]
    rw [List.range_succ_eq_map, List.filterMap_cons, List.filterMap_map]
    have hcomp : ((fun j => scrape_project_details (envAt (i + j)) mp (i + j)) ∘
        Nat.succ) =
        fun j => scrape_project_details (envAt (i + 1 + j)) mp (i + 1 + j) := by
      funext j
      show scrape_project_details (envAt (i + (j + 1))) mp (i + (j + 1)) = _
      rw [show i + (j + 1) = i + 1 + j by omega]
    rw [hcomp, ← hrec]
    rcases hd : scrape_project_details (envAt i) mp i with _ | r <;>
      simp [Nat.add_zero, hd, hnb, scrapeLoop]

/-- C9: the back-navigation transition is a total boolean function; when
it reports failure after index `k` (with indices remaining), the run stops
there and the output is exactly the in-order records of indices `0..k` —
the records assembled so far are kept. -/
theorem c9_back_failure_stops (p0 : ListPage) (envAt : Nat → DetailEnv)
    (benvs : Nat → BackEnv) (mp k : Nat)
    (hok : ∀ j, j < k → navigate_back_to_list (benvs j) mp = true)
    (hfail : navigate_back_to_list (benvs k) mp = false)
    (hk : k + 1 < min mp (find_project_buttons p0 mp).length) :
    scrape_projects p0 true envAt
        (fun i => navigate_back_to_list (benvs i) mp) mp =
      (List.range (k + 1)).filterMap
        (fun i => scrape_project_details (envAt i) mp i) := by
  have hlen : ¬(find_project_buttons p0 mp).isEmpty = true := by
    intro hE
    rw [List.isEmpty_iff.mp hE] at hk
    simp at hk
  unfold scrape_projects
  rw [if_neg (by simp), if_neg hlen]
  rw [show min mp (find_project_buttons p0 mp).length =
    k + 1 + ((min mp (find_project_buttons p0 mp).length - (k + 2)) + 1) by omega]
  have h := scrapeLoop_stops envAt
    (fun i => navigate_back_to_list (benvs i) mp) mp k
    (min mp (find_project_buttons p0 mp).length - (k + 2)) 0
    (fun j hj => by simpa using hok j hj) (by simpa using hfail)
  simpa using h

/-- Back-navigation environments for the C9 witness: the back-navigation
after index 0 lands on a page where the button cascade finds nothing. -/
def c9backs : Nat → BackEnv := fun i =>
  if i = 0 then ⟨false, true, ⟨fun _ => [], []⟩⟩ else ⟨false, true, listPage3⟩

theorem c9_witness :
    navigate_back_to_list (c9backs 0) 6 = false ∧
      scrape_projects listPage3 true c6envAt
          (fun i => navigate_back_to_list (c9backs i) 6) 6 =
        [ recWith "2025-01-01 00:00:01" ] := by
  refine ⟨by decide, ?_⟩
  have h := c9_back_failure_stops listPage3 c6envAt c9backs 6 0
    (fun j hj => absurd hj (Nat.not_lt_zero j)) (by decide) (by decide)
  exact h.trans (by decide)

end Rera
